import Mathlib

/-!
Verification of the MediConnect message bus core (broker `bus_server.py` and
peer runtime `bus_client.py`) against its natural-language specification.

The Python code is shallowly embedded: JSON values become an inductive type,
Python dicts become association lists with replace-or-append update (keys stay
unique, insertion order is preserved), sockets become natural-number
identifiers, and every stateful broker or client operation becomes a pure
function on an explicit state record.  Wall-clock timestamps are threaded as an
abstract string field `now`; network addresses and the logging calls are
elided, as is the statistics dictionary where its content never feeds back into
control flow.
-/

set_option maxRecDepth 2048

namespace Mediconnect

/-! ### JSON values and envelopes -/

/-- A JSON value as produced by `json.loads` / consumed by `json.dumps`. -/
inductive JVal where
  | null
  | bool (b : Bool)
  | num (n : Nat)
  | str (s : String)
  | arr (xs : List JVal)
  | obj (fields : List (String × JVal))
deriving Repr

/-- Structural equality test for JSON values (Python `==` on parsed JSON). -/
def JVal.beq : JVal → JVal → Bool
  | .null, .null => true
  | .bool a, .bool b => a == b
  | .num a, .num b => a == b
  | .str a, .str b => a == b
  | .arr xs, .arr ys => beqList xs ys
  | .obj xs, .obj ys => beqFields xs ys
  | _, _ => false
where
  beqList : List JVal → List JVal → Bool
    | [], [] => true
    | x :: xs, y :: ys => JVal.beq x y && beqList xs ys
    | _, _ => false
  beqFields : List (String × JVal) → List (String × JVal) → Bool
    | [], [] => true
    | (k, v) :: xs, (l, w) :: ys => k == l && JVal.beq v w && beqFields xs ys
    | _, _ => false

mutual

theorem JVal.beq_iff_eq : ∀ a b : JVal, JVal.beq a b = true ↔ a = b
  | .null, b => by cases b <;> simp [JVal.beq]
  | .bool a, b => by cases b <;> simp [JVal.beq]
  | .num a, b => by cases b <;> simp [JVal.beq]
  | .str a, b => by cases b <;> simp [JVal.beq]
  | .arr xs, b => by
      cases b <;> simp [JVal.beq]
      exact JVal.beqList_iff_eq xs _
  | .obj xs, b => by
      cases b <;> simp [JVal.beq]
      exact JVal.beqFields_iff_eq xs _

theorem JVal.beqList_iff_eq : ∀ xs ys : List JVal, JVal.beq.beqList xs ys = true ↔ xs = ys
  | [], ys => by cases ys <;> simp [JVal.beq.beqList]
  | x :: xs, ys => by
      cases ys with
      | nil => simp [JVal.beq.beqList]
      | cons y ys =>
          simp [JVal.beq.beqList, JVal.beq_iff_eq x y, JVal.beqList_iff_eq xs ys]

theorem JVal.beqFields_iff_eq :
    ∀ xs ys : List (String × JVal), JVal.beq.beqFields xs ys = true ↔ xs = ys
  | [], ys => by cases ys <;> simp [JVal.beq.beqFields]
  | (k, v) :: xs, ys => by
      cases ys with
      | nil => simp [JVal.beq.beqFields]
      | cons p ys =>
          obtain ⟨l, w⟩ := p
          simp [JVal.beq.beqFields, JVal.beq_iff_eq v w, JVal.beqFields_iff_eq xs ys,
            and_assoc]

end

instance : DecidableEq JVal := fun a b =>
  decidable_of_iff (JVal.beq a b = true) (JVal.beq_iff_eq a b)

/-- A wire envelope: the JSON object inside one frame. -/
abbrev Env := List (String × JVal)

/-! ### Python dict semantics over association lists

`dictSet` models `d[k] = v` (replace in place, or append a fresh key at the
end, as Python dicts preserve insertion order), `dictPop` models
`d.pop(k, None)`, `dictGet` models `d.get(k)`. -/

def dictGet {α β : Type} [DecidableEq α] (d : List (α × β)) (k : α) : Option β :=
  match d with
  | [] => none
  | p :: rest => if p.1 = k then some p.2 else dictGet rest k

def dictSet {α β : Type} [DecidableEq α] (d : List (α × β)) (k : α) (v : β) :
    List (α × β) :=
  if d.any (fun p => p.1 = k) then d.map (fun p => if p.1 = k then (k, v) else p)
  else d ++ [(k, v)]

def dictPop {α β : Type} [DecidableEq α] (d : List (α × β)) (k : α) : List (α × β) :=
  d.filter (fun p => p.1 ≠ k)

/-- `message.get(k)` on an envelope. -/
def getField (e : Env) (k : String) : Option JVal := dictGet e k

/-! ### Broker state (`bus_server.py`, class `BusServer`)

Sockets are identified by natural numbers.  The fields mirror the attributes
of `BusServer`: `services`, `socket_to_service`, `message_queues`, `inputs`,
`outputs`.  Direct writes performed by `_send_to_socket` are recorded in
`sent` (most recent first); sockets on which `close()` was called are recorded
in `closed`.  Wall-clock timestamps (`datetime.now().isoformat()`) are
abstracted by the string field `now`; of the `stats` dictionary only the
`errors` counter is kept, because the other counters never feed back into
control flow. -/

/-- One row of the broker registry (`ServiceInfo`); the `address`,
`registered_at` fields and the exact wall-clock `last_seen` value are network
or clock metadata and carry no control-flow weight, so `lastSeen` is the
abstract clock string and `address` is dropped. -/
structure ServiceInfo where
  name : String
  socket : Nat
  lastSeen : String
  messageCount : Nat := 0
deriving DecidableEq, Repr

structure BusState where
  services : List (String × ServiceInfo)
  socketToService : List (Nat × String)
  messageQueues : List (Nat × List Env)
  inputs : List Nat
  outputs : List Nat
  closed : List Nat
  sent : List (Nat × Env)
  errorCount : Nat
  maxMessageSize : Nat
  now : String
deriving DecidableEq, Repr

/-- `BusServer.__init__` configuration: `self.max_message_size = 10 * 1024 * 1024`. -/
def defaultMaxMessageSize : Nat := 10 * 1024 * 1024

/-- `BusServer._send_to_socket` (success path: the frame write itself is
external I/O, so the envelope is recorded in `sent`). -/
def sendToSocket (s : BusState) (sock : Nat) (message : Env) : BusState :=
  { s with sent := (sock, message) :: s.sent }

/-- `BusServer._send_error`: replies with an `action: error` envelope and bumps
the `errors` counter.  Note the envelope carries only `action`, `error` and
`timestamp`. -/
def sendError (s : BusState) (sock : Nat) (errorMessage : String) : BusState :=
  let response : Env :=
    [(("action"), JVal.str ("error")), (("error"), JVal.str errorMessage),
     (("timestamp"), JVal.str s.now)]
  let s1 := sendToSocket s sock response
  { s1 with errorCount := s1.errorCount + 1 }

/-- `BusServer._send_success`. -/
def sendSuccess (s : BusState) (sock : Nat) (message : String) : BusState :=
  sendToSocket s sock
    [(("action"), JVal.str ("success")), (("message"), JVal.str message),
     (("timestamp"), JVal.str s.now)]

/-- One iteration body of the loops in `_broadcast` and `_heartbeat_loop`:
`self.message_queues[sock].put(message)` followed by the conditional
`self.outputs.add(sock)`.  A missing queue raises `KeyError`, which both
callers swallow; that is the `none` result. -/
def enqueueTo (s : BusState) (sock : Nat) (message : Env) : Option BusState :=
  match dictGet s.messageQueues sock with
  | none => none
  | some q => some { s with
      messageQueues := dictSet s.messageQueues sock (q ++ [message]),
      outputs := if sock ∈ s.outputs then s.outputs else sock :: s.outputs }

/-- The loop of `BusServer._broadcast` over a snapshot of
`self.services.items()`; the accumulator counts `recipients`. -/
def broadcastAux (message : Env) (excludeSockets : List Nat) :
    List (String × ServiceInfo) → BusState → Nat → BusState × Nat
  | [], s, n => (s, n)
  | entry :: rest, s, n =>
      if entry.2.socket ∈ excludeSockets then broadcastAux message excludeSockets rest s n
      else
        match enqueueTo s entry.2.socket message with
        | none => broadcastAux message excludeSockets rest s n
        | some s1 => broadcastAux message excludeSockets rest s1 (n + 1)

/-- `BusServer._broadcast`: enqueue `message` on every registered service not
in `excludeSockets`; returns the updated state and the recipient count. -/
def broadcast (s : BusState) (message : Env) (excludeSockets : List Nat) :
    BusState × Nat :=
  broadcastAux message excludeSockets s.services s 0

/-- `BusServer._cleanup_socket`: pop the socket from `socket_to_service`, drop
its registry row (broadcasting `service_disconnected`), remove it from the
select sets, discard its queue, and close it. -/
def cleanupSocket (s : BusState) (sock : Nat) : BusState :=
  let serviceName := dictGet s.socketToService sock
  let s1 := { s with socketToService := dictPop s.socketToService sock }
  let s2 :=
    match serviceName with
    | some name =>
        if name ≠ ("") then
          match dictGet s1.services name with
          | some _ =>
              let s3 := { s1 with services := dictPop s1.services name }
              let notification : Env :=
                [(("action"), JVal.str ("service_disconnected")),
                 (("service_name"), JVal.str name),
                 (("timestamp"), JVal.str s3.now),
                 (("reason"), JVal.str ("connection_closed"))]
              (broadcast s3 notification [sock]).1
          | none => s1
        else s1
    | none => s1
  let s4 := { s2 with inputs := s2.inputs.filter (fun x => x ≠ sock),
                      outputs := s2.outputs.filter (fun x => x ≠ sock) }
  let s5 := { s4 with messageQueues := dictPop s4.messageQueues sock }
  { s5 with closed := sock :: s5.closed }

/-- The `service_name = message.get('service_name'); if not service_name`
check at the top of `_register_service`.  Python falsiness: a missing key, an
empty string (and the other falsy JSON values) are rejected.  Registry names
are modelled as strings; a truthy non-string `service_name` (which CPython
would accept as a dict key) lies outside the modelled state space and is
mapped to the rejection branch. -/
def getServiceName (message : Env) : Option String :=
  match getField message ("service_name") with
  | some (JVal.str name) => if name = ("") then none else some name
  | _ => none

/-- The registration tail of `_register_service`: build the `ServiceInfo`
row, insert it into both maps, send the `registered` confirmation directly on
the socket, and broadcast `service_connected` to everyone else. -/
def commitBind (s : BusState) (sock : Nat) (serviceName : String) : BusState :=
  let info : ServiceInfo :=
    { name := serviceName, socket := sock, lastSeen := s.now, messageCount := 0 }
  let s1 := { s with services := dictSet s.services serviceName info,
                     socketToService := dictSet s.socketToService sock serviceName }
  let response : Env :=
    [(("action"), JVal.str ("registered")),
     (("service_name"), JVal.str serviceName),
     (("message"), JVal.str (("Servicio ") ++ serviceName ++ (" registrado exitosamente"))),
     (("timestamp"), JVal.str s1.now),
     (("registered_services"), JVal.arr (s1.services.map (fun p => JVal.str p.1)))]
  let s2 := sendToSocket s1 sock response
  let notification : Env :=
    [(("action"), JVal.str ("service_connected")),
     (("service_name"), JVal.str serviceName),
     (("timestamp"), JVal.str s2.now)]
  (broadcast s2 notification [sock]).1

/-- `BusServer._register_service`. -/
def registerService (s : BusState) (sock : Nat) (message : Env) : BusState :=
  match getServiceName message with
  | none => sendError s sock ("Nombre de servicio requerido")
  | some serviceName =>
      match dictGet s.services serviceName with
      | some info =>
          if info.socket ≠ sock then
            commitBind (cleanupSocket s info.socket) sock serviceName
          else
            let touched := { info with lastSeen := s.now }
            sendSuccess { s with services := dictSet s.services serviceName touched }
              sock (("Servicio ") ++ serviceName ++ (" ya registrado"))
      | none => commitBind s sock serviceName

/-- `BusServer._route_message`.  A non-string `destination` value ends in one
of the two error replies in Python (a hashable one misses the registry, an
unhashable one raises into the generic handler); both are collapsed into the
final fallback reply here. -/
def routeMessage (s : BusState) (sock : Nat) (message : Env) : BusState :=
  match getField message ("destination") with
  | some (JVal.str destination) =>
      match dictGet s.services destination with
      | none =>
          sendError s sock (("Servicio destino ") ++ destination ++ (" no encontrado"))
      | some destInfo =>
          let destSock := destInfo.socket
          let destTouched := { destInfo with lastSeen := s.now,
                                             messageCount := destInfo.messageCount + 1 }
          let s1 := { s with services := dictSet s.services destination destTouched }
          let sender := match getField message ("sender") with
            | some (JVal.str x) => x
            | _ => ("unknown")
          let s2 := match dictGet s1.services sender with
            | some senderInfo =>
                let senderTouched := { senderInfo with
                  messageCount := senderInfo.messageCount + 1, lastSeen := s1.now }
                { s1 with services := dictSet s1.services sender senderTouched }
            | none => s1
          let hopCount := (match getField message ("_routed") with
            | some (JVal.obj r) =>
                (match dictGet r ("hop_count") with
                 | some (JVal.num h) => h
                 | _ => 0)
            | _ => 0) + 1
          let routedMessage := dictSet message ("_routed") (JVal.obj
            [(("sender_socket"), JVal.str (toString sock)),
             (("timestamp"), JVal.str s2.now),
             (("hop_count"), JVal.num hopCount)])
          match dictGet s2.messageQueues destSock with
          | none => sendError s2 sock ("Error enrutando mensaje")
          | some q =>
              let s3 := { s2 with
                messageQueues := dictSet s2.messageQueues destSock (q ++ [routedMessage]),
                outputs := if destSock ∈ s2.outputs then s2.outputs
                           else destSock :: s2.outputs }
              sendToSocket s3 sock
                [(("action"), JVal.str ("routed")),
                 (("destination"), JVal.str destination),
                 (("message"), JVal.str (("Mensaje enrutado a ") ++ destination)),
                 (("timestamp"), JVal.str s3.now),
                 (("queue_size"), JVal.num (q.length + 1))]
  | _ => sendError s sock ("Servicio destino no encontrado")

/-- `BusServer._handle_ping` (the `stats` payload of the reply is opaque data
and is modelled as `null`). -/
def handlePing (s : BusState) (sock : Nat) : BusState :=
  let response : Env :=
    [(("action"), JVal.str ("pong")), (("timestamp"), JVal.str s.now),
     (("server_time"), JVal.str s.now),
     (("services_count"), JVal.num s.services.length),
     (("stats"), JVal.null)]
  let s1 := sendToSocket s sock response
  match dictGet s1.socketToService sock with
  | some name =>
      if name ≠ ("") then
        match dictGet s1.services name with
        | some info =>
            let touched := { info with lastSeen := s1.now }
            { s1 with services := dictSet s1.services name touched }
        | none => s1
      else s1
  | none => s1

/-- `BusServer._handle_discover` (per-entry `address` and timestamps elided). -/
def handleDiscover (s : BusState) (sock : Nat) : BusState :=
  let servicesList := s.services.map (fun p => JVal.obj
    [(("name"), JVal.str p.1), (("message_count"), JVal.num p.2.messageCount)])
  sendToSocket s sock
    [(("action"), JVal.str ("discover_response")), (("timestamp"), JVal.str s.now),
     (("services"), JVal.arr servicesList),
     (("total_services"), JVal.num servicesList.length)]

/-- `BusServer._handle_broadcast`. -/
def handleBroadcast (s : BusState) (sock : Nat) (message : Env) : BusState :=
  let sender := match getField message ("sender") with
    | some (JVal.str x) => x
    | _ => ("unknown")
  let data := (getField message ("data")).getD (JVal.obj [])
  let broadcastMsg : Env :=
    [(("action"), JVal.str ("broadcast")), (("sender"), JVal.str sender),
     (("data"), data), (("timestamp"), JVal.str s.now),
     (("original_timestamp"), (getField message ("timestamp")).getD JVal.null)]
  let result := broadcast s broadcastMsg [sock]
  sendToSocket result.1 sock
    [(("action"), JVal.str ("broadcast_sent")), (("timestamp"), JVal.str result.1.now),
     (("recipients"), JVal.num result.2),
     (("total_services"), JVal.num result.1.services.length)]

/-- `BusServer._process_message` action dispatch (the `messages_received`
statistics bump is elided). -/
def processServerMessage (s : BusState) (sock : Nat) (message : Env) : BusState :=
  let action := getField message ("action")
  if action = some (JVal.str ("register")) then registerService s sock message
  else if action = some (JVal.str ("ping")) then handlePing s sock
  else if action = some (JVal.str ("discover")) then handleDiscover s sock
  else if action = some (JVal.str ("broadcast")) then handleBroadcast s sock message
  else if (getField message ("destination")).isSome then routeMessage s sock message
  else sendError s sock ("Accion no reconocida")

/-- `BusServer._accept_new_connection`: add the socket to the input set,
create its empty outbound queue, and send the `welcome` envelope directly. -/
def acceptNewConnection (s : BusState) (sock : Nat) : BusState :=
  let s1 := { s with inputs := if sock ∈ s.inputs then s.inputs else sock :: s.inputs,
                     messageQueues := dictSet s.messageQueues sock [] }
  sendToSocket s1 sock
    [(("action"), JVal.str ("welcome")),
     (("message"), JVal.str ("Conectado al Bus de MediConnect")),
     (("timestamp"), JVal.str s1.now),
     (("server_version"), JVal.str ("2.0.0"))]

/-- The heartbeat broadcast of `BusServer._heartbeat_loop` (the
`server_stats` payload is opaque data, modelled as `null`). -/
def heartbeatMsg (s : BusState) : Env :=
  [(("action"), JVal.str ("heartbeat")), (("timestamp"), JVal.str s.now),
   (("server_stats"), JVal.null)]

/-- The per-service loop of `_heartbeat_loop` that enqueues the heartbeat on
every registered service (a missing queue raises `KeyError`, swallowed by the
bare `except`). -/
def heartbeatEnqueueAux (message : Env) :
    List (String × ServiceInfo) → BusState → BusState
  | [], s => s
  | entry :: rest, s =>
      match enqueueTo s entry.2.socket message with
      | none => heartbeatEnqueueAux message rest s
      | some s1 => heartbeatEnqueueAux message rest s1

/-- The heartbeat-enqueue phase of one `_heartbeat_loop` tick (the
inactive-service reaping phase depends on wall-clock arithmetic and is out of
scope of the claims). -/
def heartbeatEnqueue (s : BusState) : BusState :=
  heartbeatEnqueueAux (heartbeatMsg s) s.services s

/-! ### Frame codec -/

/-- `len(message_bytes).to_bytes(4, 'big', signed=False)`. -/
def toBytesBE4 (n : Nat) : List Nat :=
  [n / 2 ^ 24 % 256, n / 2 ^ 16 % 256, n / 2 ^ 8 % 256, n % 256]

/-- `int.from_bytes(header, 'big', signed=False)`. -/
def fromBytesBE (bs : List Nat) : Nat :=
  bs.foldl (fun acc b => acc * 256 + b) 0

/-- The frame written by `BusClient._send_message` and
`BusServer._send_to_socket`: 4-byte big-endian length header, then the
payload bytes. -/
def writeFrame (payload : List Nat) : List Nat :=
  toBytesBE4 payload.length ++ payload

/-- `BusServer._receive_message`, byte level (the JSON decode of the payload
is a separate step): read the 4-byte header (`none` on a bare end of stream),
reject sizes above `maxMessageSize`, then read exactly `messageSize` payload
bytes (`none` when the stream ends mid-frame). -/
def readFrame (maxMessageSize : Nat) (stream : List Nat) : Option (List Nat) :=
  if stream.take 4 = [] then none
  else if fromBytesBE (stream.take 4) > maxMessageSize then none
  else if (stream.drop 4).length < fromBytesBE (stream.take 4) then none
  else some ((stream.drop 4).take (fromBytesBE (stream.take 4)))

/-- `BusServer._handle_client_message`: when `_receive_message` returns a
message it is processed; on `None` (stream closed, oversize header, or a
payload that fails to decode as JSON) the socket is cleaned up.  The JSON
codec is abstracted as the `decode` parameter. -/
def handleClientFrame (s : BusState) (sock : Nat) (stream : List Nat)
    (decode : List Nat → Option Env) : BusState :=
  match readFrame s.maxMessageSize stream with
  | none => cleanupSocket s sock
  | some payload =>
      match decode payload with
      | none => cleanupSocket s sock
      | some message => processServerMessage s sock message

/-! ### Queue compaction (`BusServer._cleanup_loop`) -/

/-- The body of the compaction in `_cleanup_loop`: when a queue holds more
than 1000 messages, `get_nowait()` is called 500 times, removing the 500
oldest entries (the queue is FIFO, and 500 ≤ depth, so `Empty` never fires). -/
def compactQueue (q : List Env) : List Env :=
  if q.length > 1000 then q.drop 500 else q

/-- One compaction pass of `_cleanup_loop` over all per-connection queues. -/
def cleanupTick (s : BusState) : BusState :=
  { s with messageQueues := s.messageQueues.map (fun p => (p.1, compactQueue p.2)) }

/-! ### Peer runtime (`bus_client.py`, class `BusClient`) -/

/-- `ConnectionState` of the client. -/
inductive ConnectionState where
  | disconnected
  | connecting
  | connected
  | registered
  | error
deriving DecidableEq, Repr

/-- The `Message` dataclass (the `_metadata` field is never set by the
runtime and is elided). -/
structure Msg where
  action : String
  sender : String
  destination : Option String := none
  data : Option Env := none
  requestId : Option String := none
  timestamp : Option String := none
deriving DecidableEq, Repr

/-- `Message.to_dict`: `destination` and `request_id` are emitted only when
truthy (Python `if self.destination:`), `data` whenever it is not `None`;
a missing `timestamp` is filled with the current clock. -/
def Msg.toDict (m : Msg) (now : String) : Env :=
  [(("action"), JVal.str m.action), (("sender"), JVal.str m.sender),
   (("timestamp"), JVal.str (m.timestamp.getD now))]
  ++ (match m.destination with
      | some d => if d = ("") then [] else [(("destination"), JVal.str d)]
      | none => [])
  ++ (match m.data with
      | some d => [(("data"), JVal.obj d)]
      | none => [])
  ++ (match m.requestId with
      | some r => if r = ("") then [] else [(("request_id"), JVal.str r)]
      | none => [])

/-- The register envelope built by `BusClient._register_service`: note the
service name travels inside `data`, not at the top level. -/
def clientRegisterMsg (serviceName : String) : Msg :=
  { action := ("register"), sender := serviceName,
    data := some [(("service_name"), JVal.str serviceName)] }

/-- A handler from the callback table, abstracted by its observable behaviour
on the one message being processed: it either returns a value (possibly
`None`) or raises. -/
inductive CallbackBehavior where
  | ret (responseData : Option Env)
  | raise (message : String)
deriving DecidableEq, Repr

/-- Client-side state: connection state machine, socket presence, the
outbound queue drained by the sender loop, the pending-response table
`response_queues`, and the callback table. -/
structure ClientState where
  serviceName : String
  connectionState : ConnectionState
  socketPresent : Bool
  outgoingQueue : List Msg
  responseQueues : List (String × List Msg)
  callbacks : List (String × CallbackBehavior)
deriving DecidableEq, Repr

/-- `BusClient._is_connected`: registered and holding a socket. -/
def isConnected (st : ClientState) : Bool :=
  decide (st.connectionState = ConnectionState.registered) && st.socketPresent

/-- `BusClient.send_message`.  The boolean result records whether the message
was enqueued on `outgoing_queue` (Python returns `None` both on the
not-connected failure and on a fire-and-forget success; the queue effect is
what distinguishes them).  `requestId` stands for the caller-supplied id or
the generated `uuid4` string. -/
def sendMessage (st : ClientState) (destination action : String) (data : Option Env)
    (requestId : String) : ClientState × Bool :=
  if isConnected st = false then (st, false)
  else
    let message : Msg :=
      { action := action, sender := st.serviceName, destination := some destination,
        data := some (data.getD []), requestId := some requestId }
    ({ st with outgoingQueue := st.outgoingQueue ++ [message] }, true)

/-- Python truthiness of `message.request_id` (`None` and the empty string
are falsy). -/
def truthyId : Option String → Option String
  | some r => if r = ("") then none else some r
  | none => none

/-- The callback branch of `BusClient._process_message`: a returned value is
sent back as a `response` envelope when the message carried a truthy
`request_id` and a truthy `sender`; an exception is wrapped into an `error`
envelope under the same conditions. -/
def runCallback (st : ClientState) (m : Msg) (rid : Option String) :
    CallbackBehavior → ClientState
  | CallbackBehavior.ret responseData =>
      match rid, responseData with
      | some r, some d =>
          if m.sender ≠ ("") then
            let responseMsg : Msg :=
              { action := ("response"), sender := st.serviceName,
                destination := some m.sender, data := some d, requestId := some r }
            { st with outgoingQueue := st.outgoingQueue ++ [responseMsg] }
          else st
      | _, _ => st
  | CallbackBehavior.raise e =>
      match rid with
      | some r =>
          if m.sender ≠ ("") then
            let errorMsg : Msg :=
              { action := ("error"), sender := st.serviceName,
                destination := some m.sender,
                data := some [(("error"), JVal.str e),
                              (("original_action"), JVal.str m.action)],
                requestId := some r }
            { st with outgoingQueue := st.outgoingQueue ++ [errorMsg] }
          else st
      | none => st

/-- The fall-through of `_process_message` after the pending-slot check: run
the callback registered for the action if any; otherwise the two `elif`
branches for `action == 'response'` and `action == 'error'` create a fresh
queue under the `request_id` (it is known absent here) and store the
message. -/
def clientProcessRest (st : ClientState) (m : Msg) (rid : Option String) : ClientState :=
  match dictGet st.callbacks m.action with
  | some cb => runCallback st m rid cb
  | none =>
      match rid with
      | some r =>
          if m.action = ("response") ∨ m.action = ("error") then
            let q := (dictGet st.responseQueues r).getD []
            { st with responseQueues := dictSet st.responseQueues r (q ++ [m]) }
          else st
      | none => st

/-- `BusClient._process_message` (messages are stored as `Msg` values; the
source stores `message.to_dict()`, an equivalent representation). -/
def clientProcessMessage (st : ClientState) (m : Msg) : ClientState :=
  let rid := truthyId m.requestId
  match rid with
  | some r =>
      match dictGet st.responseQueues r with
      | some q => { st with responseQueues := dictSet st.responseQueues r (q ++ [m]) }
      | none => clientProcessRest st m rid
  | none => clientProcessRest st m rid

/-- The slot installation at the top of `BusClient._wait_for_specific_response`:
`self.response_queues[request_id] = Queue()`. -/
def installResponseSlot (st : ClientState) (requestId : String) : ClientState :=
  { st with responseQueues := dictSet st.responseQueues requestId [] }

/-- The `finally` clause of `_wait_for_specific_response`:
`self.response_queues.pop(request_id, None)`; it runs both on receipt and on
the `Empty` timeout, so the state after a timed-out wait is
`dropResponseSlot` of whatever state the wait ended in. -/
def dropResponseSlot (st : ClientState) (requestId : String) : ClientState :=
  { st with responseQueues := dictPop st.responseQueues requestId }

/-! ### Helper lemmas about the dict operations -/

theorem filter_key_nil {α β : Type} [DecidableEq α]
    (d : List (α × β)) (k : α) (h : ∀ p ∈ d, p.1 ≠ k) :
    d.filter (fun p => p.1 = k) = [] := by
  rw [List.filter_eq_nil_iff]
  intro p hp
  simpa using h p hp

theorem map_replace_of_no_key {α β : Type} [DecidableEq α]
    (d : List (α × β)) (k : α) (v : β) (h : ∀ p ∈ d, p.1 ≠ k) :
    d.map (fun p => if p.1 = k then (k, v) else p) = d := by
  induction d with
  | nil => rfl
  | cons hd rest ih =>
      simp only [List.map_cons]
      rw [if_neg (h hd (by simp)), ih (fun p hp => h p (by simp [hp]))]

theorem dictGet_no_key {α β : Type} [DecidableEq α]
    (d : List (α × β)) (k : α) (h : ∀ p ∈ d, p.1 ≠ k) : dictGet d k = none := by
  induction d with
  | nil => rfl
  | cons hd rest ih =>
      simp only [dictGet]
      rw [if_neg (h hd (by simp))]
      exact ih (fun p hp => h p (by simp [hp]))

theorem dictGet_map_replace_self {α β : Type} [DecidableEq α]
    (d : List (α × β)) (k : α) (v : β) (h : d.any (fun p => p.1 = k) = true) :
    dictGet (d.map (fun p => if p.1 = k then (k, v) else p)) k = some v := by
  induction d with
  | nil => simp at h
  | cons hd rest ih =>
      simp only [List.map_cons]
      by_cases hp : hd.1 = k
      · rw [if_pos hp]
        simp [dictGet]
      · rw [if_neg hp]
        simp only [dictGet]
        rw [if_neg hp]
        simp only [List.any_cons, Bool.or_eq_true, decide_eq_true_eq] at h
        exact ih (h.resolve_left hp)

theorem dictGet_map_replace_ne {α β : Type} [DecidableEq α]
    (d : List (α × β)) (k k₁ : α) (v : β) (hne : k₁ ≠ k) :
    dictGet (d.map (fun p => if p.1 = k then (k, v) else p)) k₁ = dictGet d k₁ := by
  induction d with
  | nil => rfl
  | cons hd rest ih =>
      simp only [List.map_cons]
      by_cases hp : hd.1 = k
      · rw [if_pos hp]
        simp only [dictGet]
        rw [if_neg (show ¬ ((k, v).1 = k₁) from fun h2 => hne (by simpa using h2.symm)),
          if_neg (show ¬ (hd.1 = k₁) from fun h2 => hne (by rw [← h2, hp]))]
        exact ih
      · rw [if_neg hp]
        simp only [dictGet]
        by_cases h1 : hd.1 = k₁
        · rw [if_pos h1, if_pos h1]
        · rw [if_neg h1, if_neg h1]
          exact ih

theorem dictGet_append_single_self {α β : Type} [DecidableEq α]
    (d : List (α × β)) (k : α) (v : β) (h : ∀ p ∈ d, p.1 ≠ k) :
    dictGet (d ++ [(k, v)]) k = some v := by
  induction d with
  | nil => simp [dictGet]
  | cons hd rest ih =>
      simp only [List.cons_append, dictGet]
      rw [if_neg (h hd (by simp))]
      exact ih (fun p hp => h p (by simp [hp]))

theorem dictGet_append_single_ne {α β : Type} [DecidableEq α]
    (d : List (α × β)) (k k₁ : α) (v : β) (hne : k₁ ≠ k) :
    dictGet (d ++ [(k, v)]) k₁ = dictGet d k₁ := by
  induction d with
  | nil =>
      simp only [List.nil_append, dictGet]
      rw [if_neg (show ¬ ((k, v).1 = k₁) from fun h2 => hne (by simpa using h2.symm))]
  | cons hd rest ih =>
      simp only [List.cons_append, dictGet]
      by_cases h1 : hd.1 = k₁
      · rw [if_pos h1, if_pos h1]
      · rw [if_neg h1, if_neg h1]
        exact ih

theorem dictGet_dictSet_self {α β : Type} [DecidableEq α]
    (d : List (α × β)) (k : α) (v : β) : dictGet (dictSet d k v) k = some v := by
  unfold dictSet
  split
  · rename_i h
    exact dictGet_map_replace_self d k v h
  · rename_i h
    refine dictGet_append_single_self d k v ?_
    intro p hp hpk
    simp only [List.any_eq_true, decide_eq_true_eq, not_exists, not_and] at h
    exact h p hp hpk

theorem dictGet_dictSet_ne {α β : Type} [DecidableEq α]
    (d : List (α × β)) (k k₁ : α) (v : β) (hne : k₁ ≠ k) :
    dictGet (dictSet d k v) k₁ = dictGet d k₁ := by
  unfold dictSet
  split
  · exact dictGet_map_replace_ne d k k₁ v hne
  · exact dictGet_append_single_ne d k k₁ v hne

theorem dictGet_dictPop_self {α β : Type} [DecidableEq α]
    (d : List (α × β)) (k : α) : dictGet (dictPop d k) k = none := by
  refine dictGet_no_key _ k ?_
  intro p hp
  simp only [dictPop, List.mem_filter, decide_eq_true_eq] at hp
  simpa using hp.2

theorem dictGet_dictPop_ne {α β : Type} [DecidableEq α]
    (d : List (α × β)) (k k₁ : α) (hne : k₁ ≠ k) :
    dictGet (dictPop d k) k₁ = dictGet d k₁ := by
  induction d with
  | nil => rfl
  | cons hd rest ih =>
      simp only [dictPop, List.filter_cons] at ih ⊢
      by_cases hp : hd.1 = k
      · rw [if_neg (by simpa using hp)]
        rw [ih]
        simp only [dictGet]
        rw [if_neg (show ¬ (hd.1 = k₁) from fun h2 => hne (by rw [← h2, hp]))]
      · rw [if_pos (by simpa using hp)]
        simp only [dictGet]
        by_cases h1 : hd.1 = k₁
        · rw [if_pos h1, if_pos h1]
        · rw [if_neg h1, if_neg h1]
          exact ih

/-- The keys of a dict are pairwise distinct (Python dict invariant). -/
def keysNodup {α β : Type} (d : List (α × β)) : Prop := (d.map Prod.fst).Nodup

theorem map_fst_map_replace {α β : Type} [DecidableEq α]
    (d : List (α × β)) (k : α) (v : β) :
    (d.map (fun p => if p.1 = k then (k, v) else p)).map Prod.fst = d.map Prod.fst := by
  induction d with
  | nil => rfl
  | cons hd rest ih =>
      simp only [List.map_cons]
      by_cases hp : hd.1 = k
      · rw [if_pos hp]
        simp [hp, ih]
      · rw [if_neg hp]
        simp [ih]

theorem keysNodup_dictSet {α β : Type} [DecidableEq α]
    (d : List (α × β)) (k : α) (v : β) (h : keysNodup d) :
    keysNodup (dictSet d k v) := by
  unfold dictSet
  split
  · unfold keysNodup
    rw [map_fst_map_replace]
    exact h
  · rename_i hany
    unfold keysNodup
    rw [List.map_append]
    simp only [List.map_cons, List.map_nil]
    rw [List.nodup_append]
    refine ⟨h, by simp, ?_⟩
    intro a ha
    simp only [List.mem_singleton]
    intro hak
    subst hak
    simp only [List.any_eq_true, decide_eq_true_eq, not_exists, not_and] at hany
    obtain ⟨p, hp, hpk⟩ := List.mem_map.mp ha
    exact hany p hp hpk

theorem keysNodup_dictPop {α β : Type} [DecidableEq α]
    (d : List (α × β)) (k : α) (h : keysNodup d) : keysNodup (dictPop d k) := by
  unfold keysNodup dictPop
  exact List.Nodup.sublist (List.Sublist.map _ (List.filter_sublist d)) h

theorem filter_key_dictSet {α β : Type} [DecidableEq α]
    (d : List (α × β)) (k : α) (v : β) (h : keysNodup d) :
    (dictSet d k v).filter (fun p => p.1 = k) = [(k, v)] := by
  unfold dictSet
  split
  · rename_i hany
    induction d with
    | nil => simp at hany
    | cons hd rest ih =>
        simp only [keysNodup, List.map_cons, List.nodup_cons] at h
        by_cases hp : hd.1 = k
        · have hrest : ∀ p ∈ rest, p.1 ≠ k := by
            intro p hp2 hpk
            exact h.1 (List.mem_map.mpr ⟨p, hp2, hpk.trans hp.symm⟩)
          simp only [List.map_cons]
          rw [if_pos hp, map_replace_of_no_key rest k v hrest]
          simp only [List.filter_cons]
          rw [if_pos (by simp)]
          rw [filter_key_nil rest k hrest]
        · simp only [List.any_cons, Bool.or_eq_true, decide_eq_true_eq] at hany
          simp only [List.map_cons]
          rw [if_neg hp]
          simp only [List.filter_cons]
          rw [if_neg (by simpa using hp)]
          exact ih h.2 (hany.resolve_left hp)
  · rename_i hany
    simp only [List.any_eq_true, decide_eq_true_eq, not_exists, not_and] at hany
    rw [List.filter_append, filter_key_nil d k hany]
    simp

/-! ### Helper lemmas about the broker operations -/

theorem enqueueTo_eq_some {s : BusState} {sock : Nat} {m : Env} {s1 : BusState}
    (h : enqueueTo s sock m = some s1) :
    ∃ q, dictGet s.messageQueues sock = some q ∧
      s1 = { s with messageQueues := dictSet s.messageQueues sock (q ++ [m]),
                    outputs := if sock ∈ s.outputs then s.outputs
                               else sock :: s.outputs } := by
  unfold enqueueTo at h
  cases hq : dictGet s.messageQueues sock with
  | none => rw [hq] at h; cases h
  | some q =>
      rw [hq] at h
      exact ⟨q, rfl, (Option.some_injective _ h).symm⟩

theorem broadcastAux_preserves (msg : Env) (ex : List Nat) :
    ∀ (l : List (String × ServiceInfo)) (s : BusState) (n : Nat),
    (broadcastAux msg ex l s n).1.services = s.services ∧
    (broadcastAux msg ex l s n).1.socketToService = s.socketToService ∧
    (broadcastAux msg ex l s n).1.inputs = s.inputs ∧
    (broadcastAux msg ex l s n).1.closed = s.closed ∧
    (broadcastAux msg ex l s n).1.sent = s.sent ∧
    (broadcastAux msg ex l s n).1.errorCount = s.errorCount ∧
    (broadcastAux msg ex l s n).1.maxMessageSize = s.maxMessageSize ∧
    (broadcastAux msg ex l s n).1.now = s.now := by
  intro l
  induction l with
  | nil => intro s n; simp [broadcastAux]
  | cons e rest ih =>
      intro s n
      unfold broadcastAux
      by_cases hmem : e.2.socket ∈ ex
      · rw [if_pos hmem]; exact ih s n
      · rw [if_neg hmem]
        cases henq : enqueueTo s e.2.socket msg with
        | none => exact ih s n
        | some s1 =>
            obtain ⟨q, hq, hs1⟩ := enqueueTo_eq_some henq
            subst hs1
            simpa using ih _ (n + 1)

theorem broadcastAux_queue_none (msg : Env) (ex : List Nat) (k : Nat) :
    ∀ (l : List (String × ServiceInfo)) (s : BusState) (n : Nat),
    dictGet s.messageQueues k = none →
    dictGet (broadcastAux msg ex l s n).1.messageQueues k = none := by
  intro l
  induction l with
  | nil => intro s n h; simpa [broadcastAux] using h
  | cons e rest ih =>
      intro s n h
      unfold broadcastAux
      by_cases hmem : e.2.socket ∈ ex
      · rw [if_pos hmem]; exact ih s n h
      · rw [if_neg hmem]
        cases henq : enqueueTo s e.2.socket msg with
        | none => exact ih s n h
        | some s1 =>
            obtain ⟨q, hq, hs1⟩ := enqueueTo_eq_some henq
            subst hs1
            refine ih _ (n + 1) ?_
            have hne : k ≠ e.2.socket := by
              intro he
              rw [he, hq] at h
              cases h
            simpa [dictGet_dictSet_ne _ _ _ _ hne] using h

theorem broadcastAux_queue_untouched (msg : Env) (ex : List Nat) (k : Nat) :
    ∀ (l : List (String × ServiceInfo)) (s : BusState) (n : Nat),
    (∀ e ∈ l, e.2.socket ≠ k) →
    dictGet (broadcastAux msg ex l s n).1.messageQueues k = dictGet s.messageQueues k := by
  intro l
  induction l with
  | nil => intro s n _; simp [broadcastAux]
  | cons e rest ih =>
      intro s n h
      unfold broadcastAux
      by_cases hmem : e.2.socket ∈ ex
      · rw [if_pos hmem]
        exact ih s n (fun x hx => h x (by simp [hx]))
      · rw [if_neg hmem]
        cases henq : enqueueTo s e.2.socket msg with
        | none => exact ih s n (fun x hx => h x (by simp [hx]))
        | some s1 =>
            obtain ⟨q, hq, hs1⟩ := enqueueTo_eq_some henq
            subst hs1
            rw [ih _ (n + 1) (fun x hx => h x (by simp [hx]))]
            have hke : k ≠ e.2.socket := fun he => (h e (by simp)) he.symm
            simpa using dictGet_dictSet_ne s.messageQueues e.2.socket k (q ++ [msg]) hke

theorem broadcast_services (s : BusState) (msg : Env) (ex : List Nat) :
    (broadcast s msg ex).1.services = s.services :=
  (broadcastAux_preserves msg ex s.services s 0).1

theorem broadcast_socketToService (s : BusState) (msg : Env) (ex : List Nat) :
    (broadcast s msg ex).1.socketToService = s.socketToService :=
  (broadcastAux_preserves msg ex s.services s 0).2.1

theorem broadcast_inputs (s : BusState) (msg : Env) (ex : List Nat) :
    (broadcast s msg ex).1.inputs = s.inputs :=
  (broadcastAux_preserves msg ex s.services s 0).2.2.1

theorem broadcast_closed (s : BusState) (msg : Env) (ex : List Nat) :
    (broadcast s msg ex).1.closed = s.closed :=
  (broadcastAux_preserves msg ex s.services s 0).2.2.2.1

theorem broadcast_sent (s : BusState) (msg : Env) (ex : List Nat) :
    (broadcast s msg ex).1.sent = s.sent :=
  (broadcastAux_preserves msg ex s.services s 0).2.2.2.2.1

theorem broadcast_errorCount (s : BusState) (msg : Env) (ex : List Nat) :
    (broadcast s msg ex).1.errorCount = s.errorCount :=
  (broadcastAux_preserves msg ex s.services s 0).2.2.2.2.2.1

theorem broadcast_queue_none (s : BusState) (msg : Env) (ex : List Nat) (k : Nat)
    (h : dictGet s.messageQueues k = none) :
    dictGet (broadcast s msg ex).1.messageQueues k = none :=
  broadcastAux_queue_none msg ex k s.services s 0 h

theorem broadcast_queue_unregistered (s : BusState) (msg : Env) (ex : List Nat) (k : Nat)
    (h : ∀ e ∈ s.services, e.2.socket ≠ k) :
    dictGet (broadcast s msg ex).1.messageQueues k = dictGet s.messageQueues k :=
  broadcastAux_queue_untouched msg ex k s.services s 0 h

theorem heartbeatEnqueueAux_queue_untouched (msg : Env) (k : Nat) :
    ∀ (l : List (String × ServiceInfo)) (s : BusState),
    (∀ e ∈ l, e.2.socket ≠ k) →
    dictGet (heartbeatEnqueueAux msg l s).messageQueues k = dictGet s.messageQueues k := by
  intro l
  induction l with
  | nil => intro s _; simp [heartbeatEnqueueAux]
  | cons e rest ih =>
      intro s h
      unfold heartbeatEnqueueAux
      cases henq : enqueueTo s e.2.socket msg with
      | none => exact ih s (fun x hx => h x (by simp [hx]))
      | some s1 =>
          obtain ⟨q, hq, hs1⟩ := enqueueTo_eq_some henq
          subst hs1
          rw [ih _ (fun x hx => h x (by simp [hx]))]
          have hke : k ≠ e.2.socket := fun he => (h e (by simp)) he.symm
          simpa using dictGet_dictSet_ne s.messageQueues e.2.socket k (q ++ [msg]) hke

theorem heartbeatEnqueue_queue_unregistered (s : BusState) (k : Nat)
    (h : ∀ e ∈ s.services, e.2.socket ≠ k) :
    dictGet (heartbeatEnqueue s).messageQueues k = dictGet s.messageQueues k :=
  heartbeatEnqueueAux_queue_untouched (heartbeatMsg s) k s.services s h

theorem cleanupSocket_queue_self (s : BusState) (sock : Nat) :
    dictGet (cleanupSocket s sock).messageQueues sock = none := by
  unfold cleanupSocket
  simp only []
  exact dictGet_dictPop_self _ _

theorem cleanupSocket_not_input (s : BusState) (sock : Nat) :
    sock ∉ (cleanupSocket s sock).inputs := by
  unfold cleanupSocket
  simp only []
  simp [List.mem_filter]

theorem cleanupSocket_closed (s : BusState) (sock : Nat) :
    (cleanupSocket s sock).closed = sock :: s.closed := by
  unfold cleanupSocket
  simp only []
  cases hsts : dictGet s.socketToService sock with
  | none => rfl
  | some name =>
      simp only []
      by_cases hname : name ≠ ("")
      · rw [if_pos hname]
        cases hsvc : dictGet s.services name with
        | none => rfl
        | some info => simp [broadcast_closed]
      · rw [if_neg hname]

theorem cleanupSocket_services_nodup (s : BusState) (sock : Nat)
    (h : keysNodup s.services) : keysNodup (cleanupSocket s sock).services := by
  unfold cleanupSocket
  simp only []
  cases hsts : dictGet s.socketToService sock with
  | none => exact h
  | some name =>
      simp only []
      by_cases hname : name ≠ ("")
      · rw [if_pos hname]
        cases hsvc : dictGet s.services name with
        | none => exact h
        | some info =>
            simp only [broadcast_services]
            exact keysNodup_dictPop _ _ h
      · rw [if_neg hname]
        exact h

theorem commitBind_services (s : BusState) (sock : Nat) (n : String) :
    (commitBind s sock n).services =
      dictSet s.services n
        { name := n, socket := sock, lastSeen := s.now, messageCount := 0 } := by
  unfold commitBind
  simp only [broadcast_services, sendToSocket]

theorem commitBind_closed (s : BusState) (sock : Nat) (n : String) :
    (commitBind s sock n).closed = s.closed := by
  unfold commitBind
  simp only [broadcast_closed, sendToSocket]

theorem commitBind_errorCount (s : BusState) (sock : Nat) (n : String) :
    (commitBind s sock n).errorCount = s.errorCount := by
  unfold commitBind
  simp only [broadcast_errorCount, sendToSocket]

theorem commitBind_socketToService (s : BusState) (sock : Nat) (n : String) :
    (commitBind s sock n).socketToService = dictSet s.socketToService sock n := by
  unfold commitBind
  simp only [broadcast_socketToService, sendToSocket]

theorem commitBind_queue_none (s : BusState) (sock : Nat) (n : String) (k : Nat)
    (h : dictGet s.messageQueues k = none) :
    dictGet (commitBind s sock n).messageQueues k = none := by
  unfold commitBind
  simp only []
  exact broadcast_queue_none _ _ _ _ h

theorem commitBind_sent (s : BusState) (sock : Nat) (n : String) :
    ∃ resp, (commitBind s sock n).sent = (sock, resp) :: s.sent
      ∧ getField resp ("action") = some (JVal.str ("registered"))
      ∧ getField resp ("service_name") = some (JVal.str n) := by
  unfold commitBind
  simp only [broadcast_sent, sendToSocket]
  refine ⟨_, rfl, ?_, ?_⟩
  · simp [getField, dictGet]
  · simp [getField, dictGet]

/-- The register envelope as the broker reads it: the name at the top level. -/
def regEnv (n : String) : Env :=
  [(("action"), JVal.str ("register")), (("service_name"), JVal.str n)]

theorem getServiceName_regEnv (n : String) (hn : n ≠ ("")) :
    getServiceName (regEnv n) = some n := by
  unfold getServiceName regEnv getField
  simp [dictGet, hn]

theorem registerService_error_eq (s : BusState) (c : Nat) (message : Env)
    (hname : getServiceName message = none) :
    registerService s c message = sendError s c ("Nombre de servicio requerido") := by
  unfold registerService
  rw [hname]

theorem registerService_supersede_eq (s : BusState) (c : Nat) (message : Env)
    (n : String) (info : ServiceInfo)
    (hname : getServiceName message = some n)
    (hsvc : dictGet s.services n = some info) (hsock : info.socket ≠ c) :
    registerService s c message = commitBind (cleanupSocket s info.socket) c n := by
  unfold registerService
  rw [hname]
  simp only []
  rw [hsvc]
  simp only []
  rw [if_pos hsock]

theorem registerService_touch_eq (s : BusState) (c : Nat) (message : Env)
    (n : String) (info : ServiceInfo)
    (hname : getServiceName message = some n)
    (hsvc : dictGet s.services n = some info) (hsock : ¬ info.socket ≠ c) :
    registerService s c message =
      sendSuccess
        { s with services := dictSet s.services n ({ info with lastSeen := s.now }) }
        c ((("Servicio ") ++ n ++ (" ya registrado"))) := by
  unfold registerService
  rw [hname]
  simp only []
  rw [hsvc]
  simp only []
  rw [if_neg hsock]

theorem registerService_fresh_eq (s : BusState) (c : Nat) (message : Env) (n : String)
    (hname : getServiceName message = some n)
    (hsvc : dictGet s.services n = none) :
    registerService s c message = commitBind s c n := by
  unfold registerService
  rw [hname]
  simp only []
  rw [hsvc]

theorem registerService_binds (s : BusState) (c : Nat) (n : String) (hn : n ≠ ("")) :
    ∃ info, dictGet (registerService s c (regEnv n)).services n = some info
      ∧ info.socket = c := by
  cases hsvc : dictGet s.services n with
  | none =>
      rw [registerService_fresh_eq s c (regEnv n) n (getServiceName_regEnv n hn) hsvc,
        commitBind_services]
      exact ⟨_, dictGet_dictSet_self _ _ _, rfl⟩
  | some info =>
      by_cases hsock : info.socket ≠ c
      · rw [registerService_supersede_eq s c (regEnv n) n info (getServiceName_regEnv n hn)
          hsvc hsock, commitBind_services]
        exact ⟨_, dictGet_dictSet_self _ _ _, rfl⟩
      · rw [registerService_touch_eq s c (regEnv n) n info (getServiceName_regEnv n hn)
          hsvc hsock]
        push_neg at hsock
        refine ⟨{ info with lastSeen := s.now }, ?_, hsock⟩
        simp only [sendSuccess, sendToSocket]
        exact dictGet_dictSet_self _ _ _

theorem registerService_services_nodup (s : BusState) (c : Nat) (message : Env)
    (h : keysNodup s.services) :
    keysNodup (registerService s c message).services := by
  cases hname : getServiceName message with
  | none =>
      rw [registerService_error_eq s c message hname]
      exact h
  | some n =>
      cases hsvc : dictGet s.services n with
      | none =>
          rw [registerService_fresh_eq s c message n hname hsvc, commitBind_services]
          exact keysNodup_dictSet _ _ _ h
      | some info =>
          by_cases hsock : info.socket ≠ c
          · rw [registerService_supersede_eq s c message n info hname hsvc hsock,
              commitBind_services]
            exact keysNodup_dictSet _ _ _ (cleanupSocket_services_nodup s info.socket h)
          · rw [registerService_touch_eq s c message n info hname hsvc hsock]
            simp only [sendSuccess, sendToSocket]
            exact keysNodup_dictSet _ _ _ h

theorem dictGet_single {α β : Type} [DecidableEq α] (k : α) (v : β) :
    dictGet [(k, v)] k = some v := by
  simp [dictGet]

theorem dictGet_map_value {α β γ : Type} [DecidableEq α]
    (d : List (α × β)) (f : β → γ) (k : α) :
    dictGet (d.map (fun p => (p.1, f p.2))) k = (dictGet d k).map f := by
  induction d with
  | nil => rfl
  | cons hd rest ih =>
      simp only [List.map_cons, dictGet]
      by_cases h1 : hd.1 = k
      · rw [if_pos h1, if_pos h1]
        rfl
      · rw [if_neg h1, if_neg h1]
        exact ih

theorem fromBytesBE_toBytesBE4 (n : Nat) (h : n < 2 ^ 32) :
    fromBytesBE (toBytesBE4 n) = n := by
  simp only [fromBytesBE, toBytesBE4, List.foldl]
  simp only [Nat.zero_mul, Nat.zero_add]
  omega

/-! ### The claims -/

/-- Concrete broker state for C1: one freshly accepted, still unregistered
connection (socket 1) with its empty outbound queue. -/
def c1State : BusState :=
  { services := [], socketToService := [], messageQueues := [(1, [])],
    inputs := [1], outputs := [], closed := [], sent := [], errorCount := 0,
    maxMessageSize := defaultMaxMessageSize, now := ("t1") }

/-- The register envelope exactly as `BusClient._register_service` wires it. -/
def c1RegisterEnv : Env := (clientRegisterMsg ("auth_service")).toDict ("t0")

/-- C1: the claim says the broker binds `data.service_name` and answers the
client runtime with `registered`.  Evaluating the broker on the very envelope
the client runtime sends shows the opposite: the envelope does carry
`data.service_name`, but the broker (which reads the top-level `service_name`
key) replies with the `error` envelope for a missing name, binds nothing, and
leaves the connection open.  The handshake between the two halves of this
repository can never succeed. -/
theorem c1_register_handshake_rejected_by_broker :
    getField c1RegisterEnv ("data")
      = some (JVal.obj [(("service_name"), JVal.str ("auth_service"))])
    ∧ (processServerMessage c1State 1 c1RegisterEnv).sent
        = [(1, [(("action"), JVal.str ("error")),
                (("error"), JVal.str ("Nombre de servicio requerido")),
                (("timestamp"), JVal.str ("t1"))])]
    ∧ (processServerMessage c1State 1 c1RegisterEnv).services = []
    ∧ (processServerMessage c1State 1 c1RegisterEnv).closed = []
    ∧ (processServerMessage c1State 1 c1RegisterEnv).inputs = [1] := by
  decide

/-- C2: bind(n, c1) followed by bind(n, c2) with c1 ≠ c2 leaves exactly one
registry entry for n, mapped to c2; c1 has been closed and its outbound queue
discarded, and the second bind factors as cleanup-then-commit, with the queue
already gone in the intermediate state, i.e. before the new binding is
committed. -/
theorem c2_rebind_supersedes_prior_connection (s : BusState) (n : String)
    (c1 c2 : Nat) (hn : n ≠ ("")) (hc : c1 ≠ c2) (hnd : keysNodup s.services) :
    (∃ info,
        (registerService (registerService s c1 (regEnv n)) c2 (regEnv n)).services.filter
          (fun p => p.1 = n) = [(n, info)] ∧ info.socket = c2)
    ∧ c1 ∈ (registerService (registerService s c1 (regEnv n)) c2 (regEnv n)).closed
    ∧ dictGet
        (registerService (registerService s c1 (regEnv n)) c2 (regEnv n)).messageQueues
        c1 = none
    ∧ registerService (registerService s c1 (regEnv n)) c2 (regEnv n)
        = commitBind (cleanupSocket (registerService s c1 (regEnv n)) c1) c2 n
    ∧ dictGet (cleanupSocket (registerService s c1 (regEnv n)) c1).messageQueues c1
        = none := by
  obtain ⟨info1, hsvc1, hsock1⟩ := registerService_binds s c1 n hn
  have hnd1 : keysNodup (registerService s c1 (regEnv n)).services :=
    registerService_services_nodup s c1 (regEnv n) hnd
  have hsockne : info1.socket ≠ c2 := by rw [hsock1]; exact hc
  have heq : registerService (registerService s c1 (regEnv n)) c2 (regEnv n)
      = commitBind (cleanupSocket (registerService s c1 (regEnv n)) info1.socket) c2 n :=
    registerService_supersede_eq _ c2 (regEnv n) n info1 (getServiceName_regEnv n hn)
      hsvc1 hsockne
  rw [hsock1] at heq
  have hqc1 : dictGet
      (cleanupSocket (registerService s c1 (regEnv n)) c1).messageQueues c1 = none :=
    cleanupSocket_queue_self _ c1
  refine ⟨?_, ?_, ?_, heq, hqc1⟩
  · rw [heq, commitBind_services]
    exact ⟨_, filter_key_dictSet _ _ _ (cleanupSocket_services_nodup _ c1 hnd1), rfl⟩
  · rw [heq, commitBind_closed, cleanupSocket_closed]
    simp
  · rw [heq]
    exact commitBind_queue_none _ _ _ _ hqc1

/-- Concrete start state for the C2 witness: an empty registry and two
accepted connections 1 and 2. -/
def c2InitState : BusState :=
  { services := [], socketToService := [], messageQueues := [(1, []), (2, [])],
    inputs := [1, 2], outputs := [], closed := [], sent := [], errorCount := 0,
    maxMessageSize := defaultMaxMessageSize, now := ("t") }

theorem c2_rebind_supersedes_prior_connection_witness :
    (∃ info,
        (registerService (registerService c2InitState 1 (regEnv ("a"))) 2
            (regEnv ("a"))).services.filter
          (fun p => p.1 = ("a")) = [((("a") : String), info)] ∧ info.socket = 2)
    ∧ 1 ∈ (registerService (registerService c2InitState 1 (regEnv ("a"))) 2
        (regEnv ("a"))).closed
    ∧ dictGet
        (registerService (registerService c2InitState 1 (regEnv ("a"))) 2
          (regEnv ("a"))).messageQueues 1 = none
    ∧ registerService (registerService c2InitState 1 (regEnv ("a"))) 2 (regEnv ("a"))
        = commitBind (cleanupSocket (registerService c2InitState 1 (regEnv ("a"))) 1) 2
            ("a")
    ∧ dictGet
        (cleanupSocket (registerService c2InitState 1 (regEnv ("a"))) 1).messageQueues 1
        = none :=
  c2_rebind_supersedes_prior_connection c2InitState ("a") 1 2 (by decide) (by decide)
    (by unfold keysNodup; decide)

/-- Concrete broker state for C3: service a on socket 3 is registered,
nobody else is. -/
def c3Info : ServiceInfo :=
  { name := ("a"), socket := 3, lastSeen := ("t"), messageCount := 0 }

def c3State : BusState :=
  { services := [(("a"), c3Info)],
    socketToService := [(3, ("a"))], messageQueues := [(3, [])],
    inputs := [3], outputs := [], closed := [], sent := [], errorCount := 0,
    maxMessageSize := defaultMaxMessageSize, now := ("t2") }

/-- A routed request to an unknown destination, carrying a request id. -/
def c3Request : Env :=
  [(("action"), JVal.str ("echo")), (("sender"), JVal.str ("a")),
   (("destination"), JVal.str ("nobody")), (("request_id"), JVal.str ("r1"))]

/-- The error envelope `_send_error` produces for that request. -/
def c3ErrorReply : Env :=
  [(("action"), JVal.str ("error")),
   (("error"), JVal.str ("Servicio destino nobody no encontrado")),
   (("timestamp"), JVal.str ("t2"))]

/-- C3: the claim says the error reply to an unknown-destination request
carries the request id of the originating request.  Evaluating the broker on
a request that carries `request_id = r1` shows the reply is an `error`
envelope with no `request_id` key at all: `_send_error` builds only `action`,
`error` and `timestamp`, so the waiting caller (which matches replies by
request id) can never see it. -/
theorem c3_broker_error_reply_lacks_request_id :
    getField c3Request ("request_id") = some (JVal.str ("r1"))
    ∧ (processServerMessage c3State 3 c3Request).sent = [(3, c3ErrorReply)]
    ∧ getField c3ErrorReply ("action") = some (JVal.str ("error"))
    ∧ getField c3ErrorReply ("request_id") = none := by
  decide

/-- Concrete broker state for C4: service a registered on socket 5. -/
def c4Info : ServiceInfo :=
  { name := ("a"), socket := 5, lastSeen := ("t"), messageCount := 0 }

def c4State : BusState :=
  { services := [(("a"), c4Info)],
    socketToService := [(5, ("a"))], messageQueues := [(5, [])],
    inputs := [5], outputs := [], closed := [], sent := [], errorCount := 0,
    maxMessageSize := defaultMaxMessageSize, now := ("t") }

/-- A frame whose 4-byte header announces one byte more than the maximum. -/
def c4Frame : List Nat := toBytesBE4 (defaultMaxMessageSize + 1)

def c4Decode : List Nat → Option Env := fun _ => none

/-- C4 counterexample: the claim says the oversize frame is rejected without
closing the connection and the sender stays registered.  On a registered
socket and an oversize header, the broker in fact closes the socket and drops
its registration: `_receive_message` returns `None`, which
`_handle_client_message` treats as a disconnect and hands to
`_cleanup_socket`. -/
theorem c4_oversize_frame_closes_connection_counterexample :
    fromBytesBE (c4Frame.take 4) = defaultMaxMessageSize + 1
    ∧ (handleClientFrame c4State 5 c4Frame c4Decode).closed = [5]
    ∧ dictGet (handleClientFrame c4State 5 c4Frame c4Decode).services ("a") = none
    ∧ 5 ∉ (handleClientFrame c4State 5 c4Frame c4Decode).inputs := by
  decide

/-- C4 amended: a frame whose header value exceeds the configured maximum is
abandoned and the connection is torn down exactly as on a client disconnect:
the handler reduces to `_cleanup_socket`, after which the socket is closed,
out of the input set, and its queue is discarded. -/
theorem c4_oversize_frame_reaps_socket (s : BusState) (sock : Nat)
    (stream : List Nat) (decode : List Nat → Option Env)
    (hhead : stream.take 4 ≠ [])
    (hover : fromBytesBE (stream.take 4) > s.maxMessageSize) :
    handleClientFrame s sock stream decode = cleanupSocket s sock
    ∧ sock ∈ (handleClientFrame s sock stream decode).closed
    ∧ dictGet (handleClientFrame s sock stream decode).messageQueues sock = none
    ∧ sock ∉ (handleClientFrame s sock stream decode).inputs := by
  have hread : readFrame s.maxMessageSize stream = none := by
    unfold readFrame
    rw [if_neg hhead, if_pos hover]
  have heq : handleClientFrame s sock stream decode = cleanupSocket s sock := by
    unfold handleClientFrame
    rw [hread]
  refine ⟨heq, ?_, ?_, ?_⟩
  · rw [heq, cleanupSocket_closed]
    simp
  · rw [heq]
    exact cleanupSocket_queue_self s sock
  · rw [heq]
    exact cleanupSocket_not_input s sock

theorem c4_oversize_frame_reaps_socket_witness :
    handleClientFrame c4State 5 c4Frame c4Decode = cleanupSocket c4State 5
    ∧ 5 ∈ (handleClientFrame c4State 5 c4Frame c4Decode).closed
    ∧ dictGet (handleClientFrame c4State 5 c4Frame c4Decode).messageQueues 5 = none
    ∧ 5 ∉ (handleClientFrame c4State 5 c4Frame c4Decode).inputs :=
  c4_oversize_frame_reaps_socket c4State 5 c4Frame c4Decode (by decide) (by decide)

/-- Client state for the C5 counterexample: registered, no callbacks, and the
pending-response table as `_wait_for_specific_response` leaves it after a
timeout on request r1 (slot installed, then popped by the `finally`). -/
def c5Base : ClientState :=
  { serviceName := ("a"), connectionState := ConnectionState.registered,
    socketPresent := true, outgoingQueue := [], responseQueues := [], callbacks := [] }

def c5AfterTimeout : ClientState :=
  dropResponseSlot (installResponseSlot c5Base ("r1")) ("r1")

/-- A response envelope for r1 arriving after the timeout. -/
def c5LateResponse : Msg :=
  { action := ("response"), sender := ("b"), requestId := some ("r1") }

/-- C5 counterexample: the claim says a response arriving after the timeout is
discarded and not stored in the pending-response table.  Processing the late
response on the post-timeout state in fact re-creates a queue under its
request id and stores the message there (`_process_message`, the
`elif action == response and request_id` branch). -/
theorem c5_late_response_stored_counterexample :
    dictGet c5AfterTimeout.responseQueues ("r1") = none
    ∧ dictGet (clientProcessMessage c5AfterTimeout c5LateResponse).responseQueues ("r1")
        = some [c5LateResponse] := by
  decide

/-- C5 amended: on timeout the pending-response slot is removed (the `finally`
pop), but a response envelope with that request id arriving after the timeout
is not discarded: with no callback bound to `response`, the receive pipeline
re-creates a queue under the request id in the pending-response table and
stores the late response there. -/
theorem c5_timeout_removes_slot_but_restores_late_response (st : ClientState)
    (rid : String) (m : Msg) (hact : m.action = ("response"))
    (hrid : m.requestId = some rid) (hr : rid ≠ (""))
    (hcb : dictGet st.callbacks ("response") = none)
    (hslot : dictGet st.responseQueues rid = none) :
    dictGet (dropResponseSlot st rid).responseQueues rid = none
    ∧ dictGet (clientProcessMessage st m).responseQueues rid = some [m] := by
  constructor
  · exact dictGet_dictPop_self _ _
  · unfold clientProcessMessage
    rw [hrid]
    simp only [truthyId]
    rw [if_neg hr]
    simp only []
    rw [hslot]
    simp only []
    unfold clientProcessRest
    rw [hact, hcb]
    simp only []
    rw [if_pos (Or.inl trivial), hslot]
    simp only [Option.getD_none, List.nil_append]
    exact dictGet_dictSet_self _ _ _

def c5WitState : ClientState :=
  { serviceName := ("w"), connectionState := ConnectionState.registered,
    socketPresent := true, outgoingQueue := [], responseQueues := [], callbacks := [] }

def c5WitMsg : Msg :=
  { action := ("response"), sender := ("x"), requestId := some ("q7") }

theorem c5_timeout_removes_slot_but_restores_late_response_witness :
    dictGet (dropResponseSlot c5WitState ("q7")).responseQueues ("q7") = none
    ∧ dictGet (clientProcessMessage c5WitState c5WitMsg).responseQueues ("q7")
        = some [c5WitMsg] :=
  c5_timeout_removes_slot_but_restores_late_response c5WitState ("q7") c5WitMsg
    (by decide) rfl (by decide) rfl rfl

/-- C6: in any connection state other than Registered, `send_message` leaves
the state (hence the outbound queue) untouched and reports the not-connected
failure; conversely an enqueue can only have happened in state Registered. -/
theorem c6_send_requires_registered_state (st : ClientState)
    (destination action : String) (data : Option Env) (requestId : String) :
    (st.connectionState ≠ ConnectionState.registered →
      sendMessage st destination action data requestId = (st, false))
    ∧ ((sendMessage st destination action data requestId).2 = true →
      st.connectionState = ConnectionState.registered) := by
  constructor
  · intro h
    have hc : isConnected st = false := by
      unfold isConnected
      simp [h]
    unfold sendMessage
    rw [if_pos hc]
  · intro h
    by_cases hc : isConnected st = false
    · unfold sendMessage at h
      rw [if_pos hc] at h
      cases h
    · have htrue : isConnected st = true := by
        cases hb : isConnected st
        · exact absurd hb hc
        · rfl
      unfold isConnected at htrue
      simp only [Bool.and_eq_true, decide_eq_true_eq] at htrue
      exact htrue.1

def c6WitState : ClientState :=
  { serviceName := ("s"), connectionState := ConnectionState.connecting,
    socketPresent := true, outgoingQueue := [], responseQueues := [], callbacks := [] }

theorem c6_send_requires_registered_state_witness :
    sendMessage c6WitState ("b") ("echo") none ("r") = (c6WitState, false) :=
  (c6_send_requires_registered_state c6WitState ("b") ("echo") none ("r")).1 (by decide)

/-- A queue of depth 2000 (each element an empty envelope). -/
def c7Queue : List Env := List.replicate 2000 []

/-- C7 counterexample: the claim says compaction discards exactly the oldest
50 percent.  At depth 2000 the code discards the 500 oldest (leaving 1500),
not the oldest 1000. -/
theorem c7_compaction_not_half_counterexample :
    compactQueue c7Queue ≠ c7Queue.drop 1000 := by
  have hlen : c7Queue.length = 2000 := by
    unfold c7Queue
    rw [List.length_replicate]
  have hcq : compactQueue c7Queue = c7Queue.drop 500 := by
    unfold compactQueue
    rw [if_pos (by rw [hlen]; omega)]
  intro h
  rw [hcq] at h
  have hlens := congrArg List.length h
  rw [List.length_drop, List.length_drop, hlen] at hlens
  omega

/-- C7 amended: whenever a queue is deeper than 1000, one `_cleanup_loop`
pass removes exactly the 500 oldest envelopes from it, regardless of depth. -/
theorem c7_compaction_drops_oldest_500 (s : BusState) (sock : Nat) (q : List Env)
    (hq : dictGet s.messageQueues sock = some q) (hdepth : q.length > 1000) :
    dictGet (cleanupTick s).messageQueues sock = some (q.drop 500)
    ∧ (q.drop 500).length = q.length - 500 := by
  constructor
  · unfold cleanupTick
    simp only []
    rw [dictGet_map_value, hq]
    simp only [Option.map]
    unfold compactQueue
    rw [if_pos hdepth]
  · simp

def c7WitState : BusState :=
  { services := [], socketToService := [],
    messageQueues := [(4, List.replicate 1001 [])],
    inputs := [], outputs := [], closed := [], sent := [], errorCount := 0,
    maxMessageSize := defaultMaxMessageSize, now := ("t") }

theorem c7_compaction_drops_oldest_500_witness :
    dictGet (cleanupTick c7WitState).messageQueues 4
        = some ((List.replicate 1001 ([] : Env)).drop 500) :=
  (c7_compaction_drops_oldest_500 c7WitState 4 (List.replicate 1001 [])
    (dictGet_single 4 (List.replicate 1001 []))
    (by rw [List.length_replicate]; omega)).1

/-- C8: framing round-trip.  Writing any payload whose length fits the
configured maximum (itself representable in the 4-byte header) and reading
one frame back yields the payload unchanged. -/
theorem c8_frame_roundtrip (maxPayload : Nat) (payload : List Nat)
    (hlen : payload.length ≤ maxPayload) (hmax : maxPayload < 2 ^ 32) :
    readFrame maxPayload (writeFrame payload) = some payload := by
  have hlt : payload.length < 2 ^ 32 := lt_of_le_of_lt hlen hmax
  have htake : (writeFrame payload).take 4 = toBytesBE4 payload.length := rfl
  have hdrop : (writeFrame payload).drop 4 = payload := rfl
  unfold readFrame
  rw [htake, hdrop, fromBytesBE_toBytesBE4 payload.length hlt]
  rw [if_neg (by simp [toBytesBE4]), if_neg (by omega), if_neg (by omega)]
  rw [List.take_length]

theorem c8_frame_roundtrip_witness :
    ([7, 8, 9] : List Nat).length ≤ defaultMaxMessageSize
    ∧ readFrame defaultMaxMessageSize (writeFrame [7, 8, 9]) = some [7, 8, 9] :=
  ⟨by decide, c8_frame_roundtrip defaultMaxMessageSize [7, 8, 9] (by decide) (by decide)⟩

/-- Concrete broker state for C9: socket 7 is registered as n1. -/
def c9Info : ServiceInfo :=
  { name := ("n1"), socket := 7, lastSeen := ("t"), messageCount := 0 }

def c9State : BusState :=
  { services := [(("n1"), c9Info)],
    socketToService := [(7, ("n1"))], messageQueues := [(7, [])],
    inputs := [7], outputs := [], closed := [], sent := [], errorCount := 0,
    maxMessageSize := defaultMaxMessageSize, now := ("t2") }

/-- The confirmation the broker actually sends for the conflicting register. -/
def c9Reply : Env :=
  [(("action"), JVal.str ("registered")),
   (("service_name"), JVal.str ("n2")),
   (("message"), JVal.str ("Servicio n2 registrado exitosamente")),
   (("timestamp"), JVal.str ("t2")),
   (("registered_services"), JVal.arr [JVal.str ("n1"), JVal.str ("n2")])]

/-- C9 counterexample: the claim says a register under a new name from an
already-registered socket is answered with an error and rejected.  The broker
in fact answers `registered`, binds n2 to the socket, keeps the stale n1
entry, raises no error, and closes nothing. -/
theorem c9_conflicting_register_accepted_counterexample :
    (registerService c9State 7 (regEnv ("n2"))).errorCount = 0
    ∧ dictGet (registerService c9State 7 (regEnv ("n2"))).services ("n2")
        = some { name := ("n2"), socket := 7, lastSeen := ("t2"), messageCount := 0 }
    ∧ dictGet (registerService c9State 7 (regEnv ("n2"))).services ("n1")
        = some { name := ("n1"), socket := 7, lastSeen := ("t"), messageCount := 0 }
    ∧ (registerService c9State 7 (regEnv ("n2"))).closed = []
    ∧ (registerService c9State 7 (regEnv ("n2"))).sent = [(7, c9Reply)]
    ∧ getField c9Reply ("action") = some (JVal.str ("registered")) := by
  decide

/-- C9 amended: when a socket registered under n1 registers a fresh name
n2 ≠ n1, the broker accepts it: the register commits, n2 is bound to the
socket, the reverse map now points at n2, the stale n1 registry row survives,
no error is counted, nothing is closed, and the direct reply is the
`registered` confirmation. -/
theorem c9_conflicting_register_binds_new_name (s : BusState) (sock : Nat)
    (n1 n2 : String) (info : ServiceInfo) (hn2 : n2 ≠ ("")) (hneq : n1 ≠ n2)
    (hreg : dictGet s.services n1 = some info) (_hsock : info.socket = sock)
    (hfresh : dictGet s.services n2 = none) :
    registerService s sock (regEnv n2) = commitBind s sock n2
    ∧ dictGet (registerService s sock (regEnv n2)).services n2
        = some { name := n2, socket := sock, lastSeen := s.now, messageCount := 0 }
    ∧ dictGet (registerService s sock (regEnv n2)).services n1 = some info
    ∧ dictGet (registerService s sock (regEnv n2)).socketToService sock = some n2
    ∧ (registerService s sock (regEnv n2)).closed = s.closed
    ∧ (registerService s sock (regEnv n2)).errorCount = s.errorCount
    ∧ ∃ resp, (registerService s sock (regEnv n2)).sent = (sock, resp) :: s.sent
        ∧ getField resp ("action") = some (JVal.str ("registered")) := by
  have heq := registerService_fresh_eq s sock (regEnv n2) n2
    (getServiceName_regEnv n2 hn2) hfresh
  refine ⟨heq, ?_, ?_, ?_, ?_, ?_, ?_⟩
  · rw [heq, commitBind_services]
    exact dictGet_dictSet_self _ _ _
  · rw [heq, commitBind_services, dictGet_dictSet_ne _ _ _ _ hneq]
    exact hreg
  · rw [heq, commitBind_socketToService]
    exact dictGet_dictSet_self _ _ _
  · rw [heq, commitBind_closed]
  · rw [heq, commitBind_errorCount]
  · rw [heq]
    obtain ⟨resp, hs, ha, _⟩ := commitBind_sent s sock n2
    exact ⟨resp, hs, ha⟩

theorem c9_conflicting_register_binds_new_name_witness :
    registerService c9State 7 (regEnv ("n2")) = commitBind c9State 7 ("n2")
    ∧ dictGet (registerService c9State 7 (regEnv ("n2"))).services ("n2")
        = some { name := ("n2"), socket := 7, lastSeen := ("t2"), messageCount := 0 }
    ∧ dictGet (registerService c9State 7 (regEnv ("n2"))).services ("n1")
        = some { name := ("n1"), socket := 7, lastSeen := ("t"), messageCount := 0 }
    ∧ dictGet (registerService c9State 7 (regEnv ("n2"))).socketToService 7
        = some ("n2")
    ∧ (registerService c9State 7 (regEnv ("n2"))).closed = c9State.closed
    ∧ (registerService c9State 7 (regEnv ("n2"))).errorCount = c9State.errorCount
    ∧ ∃ resp, (registerService c9State 7 (regEnv ("n2"))).sent
          = (7, resp) :: c9State.sent
        ∧ getField resp ("action") = some (JVal.str ("registered")) :=
  c9_conflicting_register_binds_new_name c9State 7 ("n1") ("n2") c9Info
    (by decide) (by decide) rfl rfl rfl

/-- C10: broadcast fan-out (which also carries the `service_connected` and
`service_disconnected` notifications) and the heartbeat tick enqueue only to
sockets in the service registry: a connection none of the registry rows point
at keeps exactly the queue it had, so an accepted-but-unregistered connection
receives no broadcast, lifecycle, or heartbeat envelope through the queues. -/
theorem c10_unregistered_connection_gets_no_enqueued_traffic (s : BusState)
    (message : Env) (excludeSockets : List Nat) (sock : Nat)
    (h : ∀ e ∈ s.services, e.2.socket ≠ sock) :
    dictGet (broadcast s message excludeSockets).1.messageQueues sock
      = dictGet s.messageQueues sock
    ∧ dictGet (heartbeatEnqueue s).messageQueues sock = dictGet s.messageQueues sock :=
  ⟨broadcast_queue_unregistered s message excludeSockets sock h,
   heartbeatEnqueue_queue_unregistered s sock h⟩

/-- Concrete state for the C10 witness: socket 3 registered as a, socket 9
accepted but unregistered (it only has its empty queue). -/
def c10Info : ServiceInfo :=
  { name := ("a"), socket := 3, lastSeen := ("t"), messageCount := 0 }

def c10State : BusState :=
  { services := [(("a"), c10Info)],
    socketToService := [(3, ("a"))], messageQueues := [(3, []), (9, [])],
    inputs := [3, 9], outputs := [], closed := [], sent := [], errorCount := 0,
    maxMessageSize := defaultMaxMessageSize, now := ("t") }

def c10Msg : Env := [(("action"), JVal.str ("service_connected"))]

theorem c10_unregistered_connection_gets_no_enqueued_traffic_witness :
    dictGet (broadcast c10State c10Msg []).1.messageQueues 9
      = dictGet c10State.messageQueues 9
    ∧ dictGet (heartbeatEnqueue c10State).messageQueues 9
      = dictGet c10State.messageQueues 9 :=
  c10_unregistered_connection_gets_no_enqueued_traffic c10State c10Msg [] 9 (by decide)

end Mediconnect
